import Mathlib

/-!
Shallow embedding of `src/lib.rs` of nornagon/minidump-rs, a neon (Node.js)
addon exposing two asynchronous operations, `minidumpStackwalk` and
`minidumpDump`.  The synchronous prologue of each exported function (runtime
acquisition, argument reading, option parsing, promise creation) is embedded
as a function into `Except`, the spawned background task as a pure function
from an environment describing the external engines (minidump reader,
stackwalk processor) to the list of settle events it performs on the
deferred handle, and `print_minidump_dump` as a pure renderer over a dump
model whose external stream printers are carried as data.
-/

namespace Minidump

/-! ### Bytes and UTF-8 (models of Rust `String::from_utf8` / `from_utf8_lossy`) -/

/-- Test for a UTF-8 continuation byte (0x80..=0xBF). -/
def isCont (b : Nat) : Bool := 0x80 ≤ b && b ≤ 0xBF

/-- Valid ranges of the second byte of a three-byte UTF-8 sequence. -/
def utf8Second3Ok (b0 b1 : Nat) : Bool :=
  if b0 == 0xE0 then 0xA0 ≤ b1 && b1 ≤ 0xBF
  else if b0 == 0xED then 0x80 ≤ b1 && b1 ≤ 0x9F
  else isCont b1

/-- Valid ranges of the second byte of a four-byte UTF-8 sequence. -/
def utf8Second4Ok (b0 b1 : Nat) : Bool :=
  if b0 == 0xF0 then 0x90 ≤ b1 && b1 ≤ 0xBF
  else if b0 == 0xF4 then 0x80 ≤ b1 && b1 ≤ 0x8F
  else isCont b1

/-- Decoding of one UTF-8 scalar whose leading byte is `b0` and whose
following bytes start `rest`: the decoded character and the bytes left, or
`none` when no valid sequence starts here. -/
def utf8DecodeOne (b0 : Nat) (rest : List Nat) : Option (Char × List Nat) :=
  if b0 < 0x80 then some (Char.ofNat b0, rest)
  else if 0xC2 ≤ b0 && b0 ≤ 0xDF then
    match rest with
    | b1 :: rest1 =>
      if isCont b1 then some (Char.ofNat ((b0 - 0xC0) * 0x40 + (b1 - 0x80)), rest1)
      else none
    | [] => none
  else if 0xE0 ≤ b0 && b0 ≤ 0xEF then
    match rest with
    | b1 :: b2 :: rest2 =>
      if utf8Second3Ok b0 b1 && isCont b2 then
        some (Char.ofNat ((b0 - 0xE0) * 0x1000 + (b1 - 0x80) * 0x40 + (b2 - 0x80)), rest2)
      else none
    | _ => none
  else if 0xF0 ≤ b0 && b0 ≤ 0xF4 then
    match rest with
    | b1 :: b2 :: b3 :: rest3 =>
      if utf8Second4Ok b0 b1 && isCont b2 && isCont b3 then
        some (Char.ofNat
          ((b0 - 0xF0) * 0x40000 + (b1 - 0x80) * 0x1000 + (b2 - 0x80) * 0x40 + (b3 - 0x80)), rest3)
      else none
    | _ => none
  else none

/-- Strict UTF-8 decoding with a step budget; every call consumes at least
one byte, so a budget of the byte count always suffices. -/
def utf8DecodeFuel : Nat → List Nat → Option (List Char)
  | _, [] => some []
  | 0, _ :: _ => none
  | fuel + 1, b0 :: rest =>
    match utf8DecodeOne b0 rest with
    | some (c, rest2) => (utf8DecodeFuel fuel rest2).map (fun cs => c :: cs)
    | none => none

/-- Strict UTF-8 decoding of a byte list, as in Rust `String::from_utf8`:
`none` when the bytes are not valid UTF-8. -/
def utf8DecodeChars (bs : List Nat) : Option (List Char) :=
  utf8DecodeFuel bs.length bs

/-- Strict UTF-8 decoding to a string (Rust `String::from_utf8`). -/
def utf8DecodeList (bs : List Nat) : Option String :=
  (utf8DecodeChars bs).map String.mk

/-- Lossy UTF-8 decoding with a step budget, replacing an invalid leading
byte with U+FFFD and moving one byte on; this per-byte replacement model of
Rust `from_utf8_lossy` coincides with Rust on every input appearing in this
development. -/
def utf8LossyFuel : Nat → List Nat → List Char
  | _, [] => []
  | 0, _ :: _ => []
  | fuel + 1, b0 :: rest =>
    match utf8DecodeOne b0 rest with
    | some (c, rest2) => c :: utf8LossyFuel fuel rest2
    | none => Char.ofNat 0xFFFD :: utf8LossyFuel fuel rest

/-- Lossy UTF-8 decoding of a byte list. -/
def utf8Lossy (bs : List Nat) : List Char :=
  utf8LossyFuel bs.length bs

/-- Lossy UTF-8 decoding to a string. -/
def fromUtf8Lossy (bs : List Nat) : String := String.mk (utf8Lossy bs)

/-- UTF-8 encoding of one character. -/
def utf8EncodeChar (c : Char) : List Nat :=
  let n := c.toNat
  if n < 0x80 then [n]
  else if n < 0x800 then [0xC0 + n / 0x40, 0x80 + n % 0x40]
  else if n < 0x10000 then [0xE0 + n / 0x1000, 0x80 + (n / 0x40) % 0x40, 0x80 + n % 0x40]
  else [0xF0 + n / 0x40000, 0x80 + (n / 0x1000) % 0x40, 0x80 + (n / 0x40) % 0x40, 0x80 + n % 0x40]

/-- UTF-8 encoding of a string, the byte content a `BufWriter<Vec<u8>>`
holds after the rendered text has been written to it. -/
def utf8Encode (s : String) : List Nat := (s.data.map utf8EncodeChar).flatten

/-! ### JavaScript values and the neon argument/option reading model -/

/-- Model of a JavaScript value as seen through neon handles. -/
inductive JsVal where
  | str : String → JsVal
  | num : Rat → JsVal
  | boolean : Bool → JsVal
  | arr : List JsVal → JsVal
  | obj : List (String × JsVal) → JsVal
  | undefined : JsVal
  | null : JsVal

/-- Model of `downcast_or_throw::<JsString>`. -/
def downcastStr : JsVal → Except String String
  | JsVal.str s => Except.ok s
  | _ => Except.error "failed to downcast to JsString"

/-- Model of `downcast_or_throw::<JsObject>`, returning the property list. -/
def downcastObj : JsVal → Except String (List (String × JsVal))
  | JsVal.obj fields => Except.ok fields
  | _ => Except.error "failed to downcast to JsObject"

/-- Model of `downcast_or_throw::<JsArray>` composed with `to_vec`. -/
def downcastArr : JsVal → Except String (List JsVal)
  | JsVal.arr vs => Except.ok vs
  | _ => Except.error "failed to downcast to JsArray"

/-- Model of `downcast_or_throw::<JsBoolean>` composed with `value`. -/
def downcastBool : JsVal → Except String Bool
  | JsVal.boolean b => Except.ok b
  | _ => Except.error "failed to downcast to JsBoolean"

/-- Model of `downcast_or_throw::<JsNumber>` composed with `value`. -/
def downcastNum : JsVal → Except String Rat
  | JsVal.num q => Except.ok q
  | _ => Except.error "failed to downcast to JsNumber"

/-- Raw property lookup on an object. -/
def getProp (fields : List (String × JsVal)) (key : String) : Option JsVal :=
  (fields.find? (fun kv => kv.fst == key)).map Prod.snd

/-- Model of neon `Object::get_opt`: an absent, `undefined` or `null`
property reads as `none`; any other value is downcast by the caller. -/
def getOpt (fields : List (String × JsVal)) (key : String) : Option JsVal :=
  match getProp fields key with
  | none => none
  | some JsVal.undefined => none
  | some JsVal.null => none
  | some v => some v

/-- Model of `get_opt::<JsString>`. -/
def getOptStr (fields : List (String × JsVal)) (key : String) : Except String (Option String) :=
  match getOpt fields key with
  | none => Except.ok none
  | some v => (downcastStr v).map some

/-- Model of `get_opt::<JsArray>` followed by `to_vec`. -/
def getOptArr (fields : List (String × JsVal)) (key : String) : Except String (Option (List JsVal)) :=
  match getOpt fields key with
  | none => Except.ok none
  | some v => (downcastArr v).map some

/-- Model of `get_opt::<JsBoolean>`. -/
def getOptBool (fields : List (String × JsVal)) (key : String) : Except String (Option Bool) :=
  match getOpt fields key with
  | none => Except.ok none
  | some v => (downcastBool v).map some

/-- Model of `get_opt::<JsNumber>`. -/
def getOptNum (fields : List (String × JsVal)) (key : String) : Except String (Option Rat) :=
  match getOpt fields key with
  | none => Except.ok none
  | some v => (downcastNum v).map some

/-- Downcasting every element of a `JsArray` to `JsString` (the two
`for ... downcast_or_throw` loops over `symbolUrls` / `symbolPaths`). -/
def downcastStrList : List JsVal → Except String (List String)
  | [] => Except.ok []
  | v :: rest => do
    let s ← downcastStr v
    let ss ← downcastStrList rest
    Except.ok (s :: ss)

/-! ### Synchronous prologue of the two exported functions -/

/-- Caller-side environment of one invocation: the (first-use) result of
`Runtime::new`, the two JavaScript arguments, and `std::env::temp_dir()`. -/
structure SyncEnv where
  runtimeInit : Except String Unit
  arg0 : Option JsVal
  arg1 : Option JsVal
  tempDir : String

/-- Configuration the stackwalk operation sends to the background task. -/
structure StackwalkConfig where
  path : String
  symbolUrls : List String
  symbolPaths : List String
  symbolsCache : String
  symbolsTmp : String
  timeout : Rat
deriving DecidableEq, Repr

/-- Configuration the dump operation sends to the background task. -/
structure DumpConfig where
  path : String
  brief : Bool
deriving DecidableEq, Repr

/-- Model of `cx.argument::<JsString>(0)`. -/
def readPathArg (arg0 : Option JsVal) : Except String String :=
  match arg0 with
  | some v => downcastStr v
  | none => Except.error "not enough arguments"

/-- Model of the `opts` computation: `cx.argument_opt(1)` followed by
`downcast_or_throw::<JsObject>` on `Some`, and `cx.empty_object()` on `None`. -/
def readOptsArg (arg1 : Option JsVal) : Except String (List (String × JsVal)) :=
  match arg1 with
  | some v => downcastObj v
  | none => Except.ok []

/-- Synchronous prologue of `minidump_stackwalk` (lib.rs lines 19-70), every
fallible step in source order; the promise pair is created only after the
last of them, so `Except.ok` here marks the point where the pending handle
comes into existence and the task is spawned. -/
def minidump_stackwalk_sync (env : SyncEnv) : Except String StackwalkConfig := do
  let _ ← env.runtimeInit
  let path ← readPathArg env.arg0
  let optsFields ← readOptsArg env.arg1
  let symbolUrlsArr ← getOptArr optsFields "symbolUrls"
  let symbolUrlsStrs ← downcastStrList (symbolUrlsArr.getD [])
  let symbolPathsArr ← getOptArr optsFields "symbolPaths"
  let symbolPathsStrs ← downcastStrList (symbolPathsArr.getD [])
  let tempDir := env.tempDir
  let symbolsCacheOpt ← getOptStr optsFields "symbolsCache"
  let symbolsCache := symbolsCacheOpt.getD (tempDir ++ "/" ++ "rust-minidump-cache")
  let symbolsTmpOpt ← getOptStr optsFields "symbolsTemp"
  let symbolsTmp := symbolsTmpOpt.getD tempDir
  let timeoutOpt ← getOptNum optsFields "timeout"
  let timeout := timeoutOpt.getD 1000
  Except.ok
    { path := path
      symbolUrls := symbolUrlsStrs
      symbolPaths := symbolPathsStrs
      symbolsCache := symbolsCache
      symbolsTmp := symbolsTmp
      timeout := timeout }

/-- Synchronous prologue of `minidump_dump` (lib.rs lines 124-142), every
fallible step in source order, ending where the promise is created. -/
def minidump_dump_sync (env : SyncEnv) : Except String DumpConfig := do
  let _ ← env.runtimeInit
  let path ← readPathArg env.arg0
  let optsFields ← readOptsArg env.arg1
  let briefOpt ← getOptBool optsFields "brief"
  let brief := briefOpt.getD false
  Except.ok { path := path, brief := brief }

/-! ### Symbol provider construction (lib.rs lines 75-88) -/

/-- Model of one symbol source added to the `MultiSymbolProvider`:
`http` is `Symbolizer::new(http_symbol_supplier(paths, urls, cache, tmp,
timeout))`, `simple` is `Symbolizer::new(simple_symbol_supplier(paths))`. -/
inductive SymbolSource where
  | http : List String → List String → String → String → Rat → SymbolSource
  | simple : List String → SymbolSource
deriving DecidableEq, Repr

/-- Model of the provider construction inside the spawned stackwalk task:
`MultiSymbolProvider::new()` as the empty list, each `provider.add` as an
appended element. -/
def buildProvider (cfg : StackwalkConfig) : List SymbolSource :=
  if !cfg.symbolUrls.isEmpty then
    [SymbolSource.http cfg.symbolPaths cfg.symbolUrls cfg.symbolsCache cfg.symbolsTmp cfg.timeout]
  else if !cfg.symbolPaths.isEmpty then
    [SymbolSource.simple cfg.symbolPaths]
  else []

/-! ### Settle events of the deferred handle -/

/-- Error value of the external minidump/processor engines: `name` models
`err.name()`, `msg` the `Display` rendering of `err`. -/
structure EngErr where
  name : String
  msg : String
deriving DecidableEq, Repr

/-- Model of the processed state returned by
`minidump_processor::process_minidump`: all the bridge uses it for is
`state.print(&mut buf)`, whose outcome (error, or bytes written into the
`BufWriter<Vec<u8>>`) this field carries. -/
structure ProcState where
  printResult : Except String (List Nat)

/-- One settle action performed on the deferred handle: resolving with a
string, rejecting with an error message, or panicking inside the settle
callback (an `unwrap` failing). -/
inductive SettleEvent where
  | resolve : String → SettleEvent
  | reject : String → SettleEvent
  | panicked : SettleEvent
deriving DecidableEq, Repr

/-- Tail of both success callbacks: `buf.into_inner().unwrap()` followed by
`String::from_utf8(bytes).unwrap()` followed by `Ok(cx.string(string))`.
Invalid UTF-8 panics instead of rejecting. -/
def finishSuccess (bytes : List Nat) : SettleEvent :=
  match utf8DecodeList bytes with
  | some s => SettleEvent.resolve s
  | none => SettleEvent.panicked

/-- Settle callback of the stackwalk task once the dump was read
(lib.rs lines 91-111): `state.print(&mut buf).unwrap()` on success,
`cx.throw_error` with the processing message on engine failure. -/
def stackwalkSettle (res : Except EngErr ProcState) : SettleEvent :=
  match res with
  | Except.ok state =>
    match state.printResult with
    | Except.ok bytes => finishSuccess bytes
    | Except.error _ => SettleEvent.panicked
  | Except.error err =>
    SettleEvent.reject (err.name ++ " - Error processing dump: " ++ err.msg)

/-- External world of the spawned stackwalk task: the outcome of
`Minidump::read_path` and, given the constructed provider, the outcome of
`process_minidump`. -/
structure StackwalkAsyncEnv where
  readDump : Except EngErr Unit
  process : List SymbolSource → Except EngErr ProcState

/-- Body of `rt.spawn(async move { ... })` in `minidump_stackwalk`
(lib.rs lines 72-119), as the list of settle events it performs. -/
def stackwalkTask (cfg : StackwalkConfig) (env : StackwalkAsyncEnv) : List SettleEvent :=
  match env.readDump with
  | Except.ok _ =>
    [stackwalkSettle (env.process (buildProvider cfg))]
  | Except.error err =>
    [SettleEvent.reject (err.name ++ " - Error reading dump: " ++ err.msg)]

/-! ### The dump model and `print_minidump_dump` (lib.rs lines 170-265) -/

/-- Load error of a stream, `minidump::Error`: the render distinguishes
only `StreamNotFound` from every other variant. -/
inductive MdError where
  | streamNotFound : MdError
  | other : String → MdError
deriving DecidableEq, Repr

/-- External `MinidumpSystemInfo` object: only its `print` output is
observable here. -/
structure SystemInfoStream where
  printText : String

/-- External `MinidumpMemoryList` object; `print` takes the `brief` flag. -/
structure MemoryListStream where
  printText : Bool → String

/-- External `MinidumpMemory64List` object; `print` takes the `brief` flag. -/
structure Memory64ListStream where
  printText : Bool → String

/-- External `MinidumpMiscInfo` object. -/
structure MiscInfoStream where
  printText : String

/-- External `MinidumpThreadList` object; `print` takes the three foundation
streams as optional context plus the `brief` flag, in source order. -/
structure ThreadListStream where
  printText : Option MemoryListStream → Option SystemInfoStream → Option MiscInfoStream →
    Bool → String

/-- External `MinidumpException` object; `print` takes system info and misc
info as optional context. -/
structure ExceptionStream where
  printText : Option SystemInfoStream → Option MiscInfoStream → String

/-- Any other external stream object whose `print` takes only the writer. -/
structure SimpleStream where
  printText : String

/-- Model of an opened `Minidump`: the header text `dump.print` writes, the
load result of every typed stream `print_minidump_dump` asks for, and the
raw bytes of the six Linux text streams. -/
structure Dump where
  headerText : String
  systemInfo : Except MdError SystemInfoStream
  memoryList : Except MdError MemoryListStream
  memory64List : Except MdError Memory64ListStream
  miscInfo : Except MdError MiscInfoStream
  threadList : Except MdError ThreadListStream
  moduleList : Except MdError SimpleStream
  unloadedModuleList : Except MdError SimpleStream
  memoryInfoList : Except MdError SimpleStream
  exception : Except MdError ExceptionStream
  assertion : Except MdError SimpleStream
  breakpadInfo : Except MdError SimpleStream
  threadNames : Except MdError SimpleStream
  crashpadInfo : Except MdError SimpleStream
  linuxCmdLine : Except MdError (List Nat)
  linuxEnviron : Except MdError (List Nat)
  linuxLsbRelease : Except MdError (List Nat)
  linuxProcStatus : Except MdError (List Nat)
  linuxCpuInfo : Except MdError (List Nat)
  linuxMaps : Except MdError (List Nat)

/-- Text a `if let Ok(x) = dump.get_stream()` section contributes: the
stream's print output when the load succeeded, nothing otherwise. -/
def streamText (e : Except MdError α) (f : α → String) : String :=
  match e with
  | Except.ok a => f a
  | Except.error _ => ""

/-- Text a `if let Some(x)` section over an upfront-loaded foundation stream
contributes. -/
def optText (o : Option α) (f : α → String) : String :=
  match o with
  | some a => f a
  | none => ""

/-- Three-way crashpad handling (lib.rs lines 229-233): print on success,
nothing on `StreamNotFound`, a literal placeholder on any other error. -/
def crashpadText (e : Except MdError SimpleStream) : String :=
  match e with
  | Except.ok s => s.printText
  | Except.error MdError.streamNotFound => ""
  | Except.error (MdError.other _) => "MinidumpCrashpadInfo cannot print invalid data"

/-- Model of the nested `print_raw_stream` function (lib.rs lines 241-249):
a header line naming the stream, then the contents split on NUL bytes,
each piece decoded lossily and the pieces joined with an escaped-NUL marker
plus newline, then a final `"\n\n"`. -/
def splitOnNul : List Nat → List (List Nat)
  | [] => [[]]
  | b :: rest =>
    if b == 0 then [] :: splitOnNul rest
    else
      match splitOnNul rest with
      | s :: ss => (b :: s) :: ss
      | [] => [[b]]

/-- Rendering of one raw Linux text stream. -/
def print_raw_stream (name : String) (contents : List Nat) : String :=
  "Stream " ++ name ++ ":\n" ++
    String.intercalate "\\0\n" ((splitOnNul contents).map fromUtf8Lossy) ++ "\n\n"

/-- Text one entry of the raw-stream loop contributes: rendered if
`get_raw_stream` succeeded, nothing otherwise. -/
def rawText (name : String) (e : Except MdError (List Nat)) : String :=
  match e with
  | Except.ok contents => print_raw_stream name contents
  | Except.error _ => ""

/-- Section texts of `print_minidump_dump` up to (excluding) the crashpad
match, in source order.  The four foundation streams are loaded upfront as
options and passed as context exactly where the source passes them. -/
def sectionsBeforeCrashpad (dump : Dump) (brief : Bool) : List String :=
  [ dump.headerText
  , streamText dump.threadList
      (fun t => t.printText dump.memoryList.toOption dump.systemInfo.toOption
        dump.miscInfo.toOption brief)
  , streamText dump.moduleList (fun m => m.printText)
  , streamText dump.unloadedModuleList (fun m => m.printText)
  , optText dump.memoryList.toOption (fun m => m.printText brief)
  , optText dump.memory64List.toOption (fun m => m.printText brief)
  , streamText dump.memoryInfoList (fun m => m.printText)
  , streamText dump.exception
      (fun e => e.printText dump.systemInfo.toOption dump.miscInfo.toOption)
  , streamText dump.assertion (fun a => a.printText)
  , optText dump.systemInfo.toOption (fun s => s.printText)
  , optText dump.miscInfo.toOption (fun m => m.printText)
  , streamText dump.breakpadInfo (fun b => b.printText)
  , streamText dump.threadNames (fun t => t.printText) ]

/-- Section texts of the final raw-stream loop, in the order of the
`streams!` macro list. -/
def rawSections (dump : Dump) : List String :=
  [ rawText "LinuxCmdLine" dump.linuxCmdLine
  , rawText "LinuxEnviron" dump.linuxEnviron
  , rawText "LinuxLsbRelease" dump.linuxLsbRelease
  , rawText "LinuxProcStatus" dump.linuxProcStatus
  , rawText "LinuxCpuInfo" dump.linuxCpuInfo
  , rawText "LinuxMaps" dump.linuxMaps ]

/-- Every section text of `print_minidump_dump`, in source order. -/
def sections (dump : Dump) (brief : Bool) : List String :=
  sectionsBeforeCrashpad dump brief ++ [crashpadText dump.crashpadInfo] ++ rawSections dump

/-- Concatenation of a list of section texts. -/
def concatAll : List String → String
  | [] => ""
  | s :: rest => s ++ concatAll rest

/-- Sequential writes into the output sink, modelling the `?` propagation
of `std::io::Error`: `cap` is the remaining capacity of the sink (`none`
for an infallible in-memory sink such as `Vec<u8>`); a write exceeding the
capacity fails and aborts the remaining writes. -/
def runWrites : Option Nat → List String → Except String String
  | _, [] => Except.ok ""
  | none, s :: rest => (runWrites none rest).map (fun out => s ++ out)
  | some cap, s :: rest =>
    if s.length ≤ cap then (runWrites (some (cap - s.length)) rest).map (fun out => s ++ out)
    else Except.error "failed to write whole buffer"

/-- Model of `print_minidump_dump`: writes every section text in source
order into a sink of capacity `cap`, returning the rendered report or the
first write error. -/
def print_minidump_dump (dump : Dump) (brief : Bool) (cap : Option Nat) : Except String String :=
  runWrites cap (sections dump brief)

/-! ### The dump operation's background task -/

/-- Settle callback tail of the dump task after the render ran: on render
success the buffer is unwrapped and UTF-8 decoded without checks, on render
failure the handle is rejected with the bare processing message
(lib.rs lines 149-156). -/
def dumpRenderSettle (r : Except String String) : SettleEvent :=
  match r with
  | Except.ok s => finishSuccess (utf8Encode s)
  | Except.error e => SettleEvent.reject ("Error processing dump: " ++ e)

/-- Settle callback of the dump task once the dump was read: render into a
`BufWriter<Vec<u8>>` (an infallible sink, capacity `none`) and finish. -/
def dumpSettle (dump : Dump) (brief : Bool) : SettleEvent :=
  dumpRenderSettle (print_minidump_dump dump brief none)

/-- External world of the spawned dump task. -/
structure DumpAsyncEnv where
  readDump : Except EngErr Dump

/-- Body of `rt.spawn(async move { ... })` in `minidump_dump`
(lib.rs lines 144-165), as the list of settle events it performs. -/
def dumpTask (cfg : DumpConfig) (env : DumpAsyncEnv) : List SettleEvent :=
  match env.readDump with
  | Except.ok dump => [dumpSettle dump cfg.brief]
  | Except.error err =>
    [SettleEvent.reject (err.name ++ " - Error reading dump: " ++ err.msg)]

/-! ### Helper lemmas -/

theorem runWrites_none (ws : List String) : runWrites none ws = Except.ok (concatAll ws) := by
  induction ws with
  | nil => rfl
  | cons s rest ih => simp [runWrites, concatAll, ih, Except.map]

theorem append_ne_empty_left (a b : String) (h : a ≠ "") : a ++ b ≠ "" := by
  intro hc
  apply h
  have hd := congrArg String.data hc
  rw [String.data_append] at hd
  exact String.ext (List.append_eq_nil.mp hd).1

theorem concatAll_sections_ne_empty (d : Dump) (brief : Bool) (h : d.headerText ≠ "") :
    concatAll (sections d brief) ≠ "" := by
  have hs : concatAll (sections d brief) =
      d.headerText ++ concatAll (List.tail (sections d brief)) := rfl
  rw [hs]
  exact append_ne_empty_left _ _ h

/-- Load result with every error collapsed to `StreamNotFound`; the render
treats the two identically everywhere except the crashpad stream. -/
def errAsAbsent : Except MdError α → Except MdError α
  | Except.ok a => Except.ok a
  | Except.error _ => Except.error MdError.streamNotFound

/-- Dump with every load error of a non-crashpad stream collapsed to
`StreamNotFound`. -/
def errorsAsAbsent (d : Dump) : Dump :=
  { d with
    systemInfo := errAsAbsent d.systemInfo
    memoryList := errAsAbsent d.memoryList
    memory64List := errAsAbsent d.memory64List
    miscInfo := errAsAbsent d.miscInfo
    threadList := errAsAbsent d.threadList
    moduleList := errAsAbsent d.moduleList
    unloadedModuleList := errAsAbsent d.unloadedModuleList
    memoryInfoList := errAsAbsent d.memoryInfoList
    exception := errAsAbsent d.exception
    assertion := errAsAbsent d.assertion
    breakpadInfo := errAsAbsent d.breakpadInfo
    threadNames := errAsAbsent d.threadNames
    linuxCmdLine := errAsAbsent d.linuxCmdLine
    linuxEnviron := errAsAbsent d.linuxEnviron
    linuxLsbRelease := errAsAbsent d.linuxLsbRelease
    linuxProcStatus := errAsAbsent d.linuxProcStatus
    linuxCpuInfo := errAsAbsent d.linuxCpuInfo
    linuxMaps := errAsAbsent d.linuxMaps }

theorem streamText_errAsAbsent (e : Except MdError α) (f : α → String) :
    streamText (errAsAbsent e) f = streamText e f := by
  cases e <;> rfl

theorem toOption_errAsAbsent (e : Except MdError α) :
    (errAsAbsent e).toOption = e.toOption := by
  cases e <;> rfl

theorem rawText_errAsAbsent (name : String) (e : Except MdError (List Nat)) :
    rawText name (errAsAbsent e) = rawText name e := by
  cases e <;> rfl

theorem sections_errorsAsAbsent (d : Dump) (brief : Bool) :
    sections (errorsAsAbsent d) brief = sections d brief := by
  simp [sections, sectionsBeforeCrashpad, rawSections, errorsAsAbsent,
    streamText_errAsAbsent, toOption_errAsAbsent, rawText_errAsAbsent]

/-! ### Concrete inputs used by witnesses -/

/-- Valid dump none of whose streams is present. -/
def dumpNoFoundation : Dump :=
  { headerText := "MDRawHeader\n"
    systemInfo := Except.error MdError.streamNotFound
    memoryList := Except.error MdError.streamNotFound
    memory64List := Except.error MdError.streamNotFound
    miscInfo := Except.error MdError.streamNotFound
    threadList := Except.error MdError.streamNotFound
    moduleList := Except.error MdError.streamNotFound
    unloadedModuleList := Except.error MdError.streamNotFound
    memoryInfoList := Except.error MdError.streamNotFound
    exception := Except.error MdError.streamNotFound
    assertion := Except.error MdError.streamNotFound
    breakpadInfo := Except.error MdError.streamNotFound
    threadNames := Except.error MdError.streamNotFound
    crashpadInfo := Except.error MdError.streamNotFound
    linuxCmdLine := Except.error MdError.streamNotFound
    linuxEnviron := Except.error MdError.streamNotFound
    linuxLsbRelease := Except.error MdError.streamNotFound
    linuxProcStatus := Except.error MdError.streamNotFound
    linuxCpuInfo := Except.error MdError.streamNotFound
    linuxMaps := Except.error MdError.streamNotFound }

/-- Dump that is valid except for a corrupt crashpad metadata stream. -/
def dumpCorruptCrashpad : Dump :=
  { dumpNoFoundation with
    moduleList := Except.ok { printText := "Module list\n" }
    crashpadInfo := Except.error (MdError.other "unknown stream type") }

/-- Byte content of the environment-block example, `"VAR1=a\0VAR2=b\0"`. -/
def envBlockBytes : List Nat := [86, 65, 82, 49, 61, 97, 0, 86, 65, 82, 50, 61, 98, 0]

/-- Stackwalk configuration with one remote URL configured. -/
def cfgWithUrl : StackwalkConfig :=
  { path := "a.dmp", symbolUrls := ["https://symbols.example"], symbolPaths := ["/syms"],
    symbolsCache := "/tmp/rust-minidump-cache", symbolsTmp := "/tmp", timeout := 1000 }

/-- Stackwalk configuration with no symbol sources configured. -/
def cfgNoSymbols : StackwalkConfig :=
  { path := "a.dmp", symbolUrls := [], symbolPaths := [],
    symbolsCache := "/tmp/rust-minidump-cache", symbolsTmp := "/tmp", timeout := 1000 }

/-! ### Claim theorems -/

/-- C1: for every stackwalk or dump request every fallible setup step
(runtime acquisition, path argument, options object parsing) precedes the
creation of the pending handle: a failing step surfaces as a synchronous
error and no handle exists (the prologue returns `Except.error`); once the
prologue succeeds the handle exists and the spawned task settles it exactly
once, for every behaviour of the external engines. -/
theorem bridge_handle_ordering :
    (∀ e a0 a1 td, minidump_stackwalk_sync ⟨Except.error e, a0, a1, td⟩ = Except.error e)
    ∧ (∀ e a0 a1 td, minidump_dump_sync ⟨Except.error e, a0, a1, td⟩ = Except.error e)
    ∧ (∀ a1 td, minidump_stackwalk_sync ⟨Except.ok (), none, a1, td⟩ =
        Except.error "not enough arguments")
    ∧ (∀ a1 td, minidump_dump_sync ⟨Except.ok (), none, a1, td⟩ =
        Except.error "not enough arguments")
    ∧ (∀ p q td, minidump_stackwalk_sync ⟨Except.ok (), some (JsVal.str p), some (JsVal.num q), td⟩
        = Except.error "failed to downcast to JsObject")
    ∧ (∀ p q td, minidump_dump_sync ⟨Except.ok (), some (JsVal.str p), some (JsVal.num q), td⟩
        = Except.error "failed to downcast to JsObject")
    ∧ (∀ env cfg, minidump_stackwalk_sync env = Except.ok cfg →
        ∀ aenv, (stackwalkTask cfg aenv).length = 1)
    ∧ (∀ env cfg, minidump_dump_sync env = Except.ok cfg →
        ∀ aenv, (dumpTask cfg aenv).length = 1) := by
  refine ⟨fun e a0 a1 td => rfl, fun e a0 a1 td => rfl, fun a1 td => rfl, fun a1 td => rfl,
    fun p q td => rfl, fun p q td => rfl, ?_, ?_⟩
  · intro env cfg _ aenv
    obtain ⟨rd, pf⟩ := aenv
    cases rd <;> rfl
  · intro env cfg _ aenv
    obtain ⟨rd⟩ := aenv
    cases rd <;> rfl

/-- Witness for C1 at concrete inputs: both prologues succeed on a valid
request and the spawned tasks settle exactly once. -/
theorem bridge_handle_ordering_witness :
    (stackwalkTask cfgNoSymbols
        ⟨Except.ok (), fun _ => Except.ok ⟨Except.ok [104]⟩⟩).length = 1
    ∧ (dumpTask { path := "a.dmp", brief := false }
        ⟨Except.error ⟨"IoError", "missing"⟩⟩).length = 1 :=
  ⟨bridge_handle_ordering.2.2.2.2.2.2.1
      ⟨Except.ok (), some (JsVal.str "a.dmp"), none, "/tmp"⟩ cfgNoSymbols rfl _,
    bridge_handle_ordering.2.2.2.2.2.2.2
      ⟨Except.ok (), some (JsVal.str "a.dmp"), none, "/tmp"⟩ { path := "a.dmp", brief := false } rfl _⟩

/-- C2: rejection messages follow the documented forms: both tasks reject a
dump-open failure with `name - Error reading dump: msg`; the stackwalk task
rejects an engine processing failure with `name - Error processing dump:
msg`; the dump task rejects a render failure with `Error processing dump:
msg`, with no engine error name. -/
theorem rejection_message_forms :
    (∀ cfg err pf, stackwalkTask cfg ⟨Except.error err, pf⟩ =
        [SettleEvent.reject (err.name ++ " - Error reading dump: " ++ err.msg)])
    ∧ (∀ cfg err, dumpTask cfg ⟨Except.error err⟩ =
        [SettleEvent.reject (err.name ++ " - Error reading dump: " ++ err.msg)])
    ∧ (∀ err, stackwalkSettle (Except.error err) =
        SettleEvent.reject (err.name ++ " - Error processing dump: " ++ err.msg))
    ∧ (∀ cfg err, stackwalkTask cfg ⟨Except.ok (), fun _ => Except.error err⟩ =
        [SettleEvent.reject (err.name ++ " - Error processing dump: " ++ err.msg)])
    ∧ (∀ m, dumpRenderSettle (Except.error m) =
        SettleEvent.reject ("Error processing dump: " ++ m)) :=
  ⟨fun cfg err pf => rfl, fun cfg err => rfl, fun err => rfl, fun cfg err => rfl, fun m => rfl⟩

/-- C3: the full-dump render is fault tolerant at stream granularity: with
an infallible sink it always returns the concatenation of the section
texts (so the only possible error is a sink write error, which `runWrites`
raises and which aborts the remaining writes); collapsing every non-crashpad
load error to stream-absence leaves the result unchanged, so a stream that
fails to load contributes no output and no error; and a valid dump with none
of the four foundation streams present still renders to a non-empty report
headed by the dump header. -/
theorem dump_render_fault_tolerance :
    (∀ d brief, print_minidump_dump d brief none = Except.ok (concatAll (sections d brief)))
    ∧ (∀ d brief cap,
        print_minidump_dump (errorsAsAbsent d) brief cap = print_minidump_dump d brief cap)
    ∧ (∀ d brief,
        d.systemInfo = Except.error MdError.streamNotFound →
        d.memoryList = Except.error MdError.streamNotFound →
        d.memory64List = Except.error MdError.streamNotFound →
        d.miscInfo = Except.error MdError.streamNotFound →
        d.headerText ≠ "" →
        print_minidump_dump d brief none = Except.ok (concatAll (sections d brief))
          ∧ concatAll (sections d brief) ≠ "") := by
  refine ⟨fun d brief => ?_, fun d brief cap => ?_, fun d brief h1 h2 h3 h4 h5 => ?_⟩
  · unfold print_minidump_dump
    rw [runWrites_none]
  · unfold print_minidump_dump
    rw [sections_errorsAsAbsent]
  · exact ⟨by unfold print_minidump_dump; rw [runWrites_none],
      concatAll_sections_ne_empty d brief h5⟩

/-- Witness for C3: a dump with no streams at all still renders successfully
to a non-empty report. -/
theorem dump_render_fault_tolerance_witness :
    print_minidump_dump dumpNoFoundation false none =
      Except.ok (concatAll (sections dumpNoFoundation false))
    ∧ concatAll (sections dumpNoFoundation false) ≠ "" :=
  dump_render_fault_tolerance.2.2 dumpNoFoundation false rfl rfl rfl rfl (by decide)

/-- C4: the crashpad metadata stream is handled three ways: printed when
present and valid, silently skipped when absent, and replaced by the
literal placeholder line on any other load error, in which case the render
still succeeds with every other section unchanged. -/
theorem crashpad_three_way_handling :
    (∀ s, crashpadText (Except.ok s) = s.printText)
    ∧ crashpadText (Except.error MdError.streamNotFound) = ""
    ∧ (∀ m, crashpadText (Except.error (MdError.other m)) =
        "MinidumpCrashpadInfo cannot print invalid data")
    ∧ (∀ d brief m, d.crashpadInfo = Except.error (MdError.other m) →
        print_minidump_dump d brief none = Except.ok (concatAll
          (sectionsBeforeCrashpad d brief ++
            ["MinidumpCrashpadInfo cannot print invalid data"] ++ rawSections d))) := by
  refine ⟨fun s => rfl, rfl, fun m => rfl, fun d brief m h => ?_⟩
  simp only [print_minidump_dump, sections, h]
  rw [runWrites_none]
  rfl

/-- Witness for C4: a dump with a corrupt crashpad stream renders with the
placeholder line in place of that section. -/
theorem crashpad_three_way_handling_witness :
    print_minidump_dump dumpCorruptCrashpad false none = Except.ok (concatAll
      (sectionsBeforeCrashpad dumpCorruptCrashpad false ++
        ["MinidumpCrashpadInfo cannot print invalid data"] ++ rawSections dumpCorruptCrashpad)) :=
  crashpad_three_way_handling.2.2.2 dumpCorruptCrashpad false "unknown stream type" rfl

/-- C5: provider construction follows the priority rule — a non-empty URL
list yields the single remote-plus-local aggregate source built from both
lists, otherwise a non-empty path list yields the local-only source,
otherwise the provider stays empty — construction is total, the task always
hands the constructed provider to the engine, and a stackwalk request with
no symbol options still succeeds synchronously. -/
theorem symbol_provider_priority :
    (∀ cfg, cfg.symbolUrls ≠ [] → buildProvider cfg =
        [SymbolSource.http cfg.symbolPaths cfg.symbolUrls cfg.symbolsCache cfg.symbolsTmp
          cfg.timeout])
    ∧ (∀ cfg, cfg.symbolUrls = [] → cfg.symbolPaths ≠ [] →
        buildProvider cfg = [SymbolSource.simple cfg.symbolPaths])
    ∧ (∀ cfg, cfg.symbolUrls = [] → cfg.symbolPaths = [] → buildProvider cfg = [])
    ∧ (∀ cfg f, stackwalkTask cfg ⟨Except.ok (), f⟩ =
        [stackwalkSettle (f (buildProvider cfg))])
    ∧ (∀ p td, minidump_stackwalk_sync ⟨Except.ok (), some (JsVal.str p), none, td⟩ =
        Except.ok
          { path := p
            symbolUrls := []
            symbolPaths := []
            symbolsCache := td ++ "/" ++ "rust-minidump-cache"
            symbolsTmp := td
            timeout := 1000 }) := by
  refine ⟨?_, ?_, ?_, fun cfg f => rfl, fun p td => rfl⟩
  · intro cfg h
    cases hu : cfg.symbolUrls with
    | nil => exact absurd hu h
    | cons a as => simp [buildProvider, hu]
  · intro cfg hu hp
    cases hq : cfg.symbolPaths with
    | nil => exact absurd hq hp
    | cons a as => simp [buildProvider, hu, hq]
  · intro cfg hu hp
    simp [buildProvider, hu, hp]

/-- Witness for C5: the three priority cases at concrete configurations. -/
theorem symbol_provider_priority_witness :
    buildProvider cfgWithUrl =
      [SymbolSource.http ["/syms"] ["https://symbols.example"] "/tmp/rust-minidump-cache"
        "/tmp" 1000]
    ∧ buildProvider { cfgWithUrl with symbolUrls := [] } = [SymbolSource.simple ["/syms"]]
    ∧ buildProvider cfgNoSymbols = [] :=
  ⟨symbol_provider_priority.1 cfgWithUrl (by decide),
    symbol_provider_priority.2.1 { cfgWithUrl with symbolUrls := [] } rfl (by decide),
    symbol_provider_priority.2.2.1 cfgNoSymbols rfl rfl⟩

/-- C6 counterexample: the byte content `"VAR1=a\0VAR2=b\0"` does not render
as exactly two joined segments separated by one escaped-NUL-marker-plus-
newline under the header; the actual render carries a second marker from
the trailing empty segment. -/
theorem raw_stream_two_segments_cex :
    print_raw_stream "LinuxEnviron" envBlockBytes ≠
      "Stream LinuxEnviron:\nVAR1=a\\0\nVAR2=b\n\n"
    ∧ print_raw_stream "LinuxEnviron" envBlockBytes =
      "Stream LinuxEnviron:\nVAR1=a\\0\nVAR2=b\\0\n\n\n" :=
  ⟨by decide, rfl⟩

/-- C6 amended: each raw OS text stream renders as a header line naming the
stream followed by the NUL-split segments joined by an escaped-NUL marker
plus newline, where content ending in a NUL byte contributes a trailing
empty segment; `"VAR1=a\0VAR2=b\0"` therefore splits into three segments
(the last empty) joined by two markers. -/
theorem raw_stream_rendering_amended :
    (∀ name contents, print_raw_stream name contents =
        "Stream " ++ name ++ ":\n" ++
          String.intercalate "\\0\n" ((splitOnNul contents).map fromUtf8Lossy) ++ "\n\n")
    ∧ splitOnNul envBlockBytes =
        [[86, 65, 82, 49, 61, 97], [86, 65, 82, 50, 61, 98], []]
    ∧ fromUtf8Lossy [86, 65, 82, 49, 61, 97] = "VAR1=a"
    ∧ fromUtf8Lossy [86, 65, 82, 50, 61, 98] = "VAR2=b"
    ∧ fromUtf8Lossy [] = ""
    ∧ print_raw_stream "LinuxEnviron" envBlockBytes =
        "Stream LinuxEnviron:\nVAR1=a\\0\nVAR2=b\\0\n\n\n" :=
  ⟨fun _ _ => rfl, rfl, rfl, rfl, rfl, rfl⟩

/-- C7: the render emits the header first, then every section in the fixed
source order, the dependent sections receiving the upfront-loaded
foundation streams (and the brief flag) exactly where the source passes
them. -/
theorem dump_render_section_order (d : Dump) (brief : Bool) :
    print_minidump_dump d brief none = Except.ok (concatAll
      [ d.headerText
      , streamText d.threadList
          (fun t => t.printText d.memoryList.toOption d.systemInfo.toOption
            d.miscInfo.toOption brief)
      , streamText d.moduleList (fun m => m.printText)
      , streamText d.unloadedModuleList (fun m => m.printText)
      , optText d.memoryList.toOption (fun m => m.printText brief)
      , optText d.memory64List.toOption (fun m => m.printText brief)
      , streamText d.memoryInfoList (fun m => m.printText)
      , streamText d.exception
          (fun e => e.printText d.systemInfo.toOption d.miscInfo.toOption)
      , streamText d.assertion (fun a => a.printText)
      , optText d.systemInfo.toOption (fun s => s.printText)
      , optText d.miscInfo.toOption (fun m => m.printText)
      , streamText d.breakpadInfo (fun b => b.printText)
      , streamText d.threadNames (fun t => t.printText)
      , crashpadText d.crashpadInfo
      , rawText "LinuxCmdLine" d.linuxCmdLine
      , rawText "LinuxEnviron" d.linuxEnviron
      , rawText "LinuxLsbRelease" d.linuxLsbRelease
      , rawText "LinuxProcStatus" d.linuxProcStatus
      , rawText "LinuxCpuInfo" d.linuxCpuInfo
      , rawText "LinuxMaps" d.linuxMaps ]) := by
  unfold print_minidump_dump
  rw [runWrites_none]
  rfl

/-- C8 counterexample: with no options supplied the temp location defaults
to the platform temporary directory itself, not to the temporary directory
plus a fixed subfolder name (which the cache default uses). -/
theorem stackwalk_temp_default_cex :
    minidump_stackwalk_sync ⟨Except.ok (), some (JsVal.str "a.dmp"), none, "/tmp"⟩ =
      Except.ok
        { path := "a.dmp"
          symbolUrls := []
          symbolPaths := []
          symbolsCache := "/tmp/rust-minidump-cache"
          symbolsTmp := "/tmp"
          timeout := 1000 }
    ∧ ("/tmp" : String) ≠ "/tmp" ++ "/" ++ "rust-minidump-cache" :=
  ⟨rfl, by decide⟩

/-- C8 amended: unspecified stackwalk options take their defaults — the
fetch timeout defaults to 1000 seconds, the symbol cache falls back to the
platform temporary directory joined with the fixed subfolder
`rust-minidump-cache`, and the symbol temp location falls back to the
platform temporary directory itself, with no subfolder. -/
theorem stackwalk_option_defaults_amended (p td : String) :
    minidump_stackwalk_sync ⟨Except.ok (), some (JsVal.str p), some (JsVal.obj []), td⟩ =
      Except.ok
        { path := p
          symbolUrls := []
          symbolPaths := []
          symbolsCache := td ++ "/" ++ "rust-minidump-cache"
          symbolsTmp := td
          timeout := 1000 } := rfl

/-- C9: the success paths use unchecked unwraps: a failed in-memory render
of the processed state panics the settle callback, and report bytes that
are not valid UTF-8 panic it as well instead of rejecting the handle; the
dump success path routes through the same unchecked UTF-8 finish. -/
theorem success_path_unchecked_unwraps :
    (∀ e, stackwalkSettle (Except.ok ⟨Except.error e⟩) = SettleEvent.panicked)
    ∧ (∀ bytes, utf8DecodeList bytes = none →
        stackwalkSettle (Except.ok ⟨Except.ok bytes⟩) = SettleEvent.panicked)
    ∧ (∀ bytes, utf8DecodeList bytes = none → finishSuccess bytes = SettleEvent.panicked)
    ∧ (∀ d brief, dumpSettle d brief = dumpRenderSettle (print_minidump_dump d brief none))
    ∧ (∀ s, dumpRenderSettle (Except.ok s) = finishSuccess (utf8Encode s)) := by
  refine ⟨fun e => rfl, ?_, ?_, fun d brief => rfl, fun s => rfl⟩
  · intro bytes h
    simp [stackwalkSettle, finishSuccess, h]
  · intro bytes h
    simp [finishSuccess, h]

/-- Witness for C9: the byte 0xFF is not valid UTF-8 and panics the settle
callback on both unchecked conversions. -/
theorem success_path_unchecked_unwraps_witness :
    stackwalkSettle (Except.ok ⟨Except.ok [255]⟩) = SettleEvent.panicked
    ∧ finishSuccess [255] = SettleEvent.panicked :=
  ⟨success_path_unchecked_unwraps.2.1 [255] rfl,
    success_path_unchecked_unwraps.2.2.1 [255] rfl⟩

/-- C10: the options argument may be omitted for both operations; omission
behaves exactly like an empty options object, every option taking its
default. -/
theorem opts_argument_optional :
    (∀ r a0 td, minidump_stackwalk_sync ⟨r, a0, none, td⟩ =
        minidump_stackwalk_sync ⟨r, a0, some (JsVal.obj []), td⟩)
    ∧ (∀ r a0 td, minidump_dump_sync ⟨r, a0, none, td⟩ =
        minidump_dump_sync ⟨r, a0, some (JsVal.obj []), td⟩)
    ∧ (∀ p td, minidump_stackwalk_sync ⟨Except.ok (), some (JsVal.str p), none, td⟩ =
        Except.ok
          { path := p
            symbolUrls := []
            symbolPaths := []
            symbolsCache := td ++ "/" ++ "rust-minidump-cache"
            symbolsTmp := td
            timeout := 1000 })
    ∧ (∀ p td, minidump_dump_sync ⟨Except.ok (), some (JsVal.str p), none, td⟩ =
        Except.ok { path := p, brief := false }) := by
  refine ⟨?_, ?_, fun p td => rfl, fun p td => rfl⟩
  · intro r a0 td
    cases r with
    | error e => rfl
    | ok u =>
      cases a0 with
      | none => rfl
      | some v => cases v <;> rfl
  · intro r a0 td
    cases r with
    | error e => rfl
    | ok u =>
      cases a0 with
      | none => rfl
      | some v => cases v <;> rfl

end Minidump
